import Mathlib

/-!
  Verification of the auth/profile/settings reconciliation core of the
  react-dashboard repository.

  The development shallowly embeds the relevant TypeScript modules:

  * `src/hosting/src/lib/errors.ts` — structured error values, `createAppError`,
    `toAppError`, `normalizeFirebaseCode`, `isFirestoreNotInitialized`,
    `serializeError` and `log`;
  * the firestore-status module (`markFirestoreUnavailable`,
    `isFirestoreAvailable`) — the module-level mutable latch becomes an
    explicit `Option String` value threaded through every operation;
  * `src/hosting/src/services/users.ts` and `userSettings.ts` — each service
    function is parametrised by an abstract document backend `Backend σ`
    (modelling the Firestore SDK) and returns, besides its result, the
    updated backend state, the updated availability latch, and the list of
    backend calls it issued;
  * the `setScale` debounce logic of `SettingsProvider.tsx` — a state machine
    over explicit rational time, with the debounce timer represented by its
    absolute deadline;
  * the `setScale` clamp of `UiScaleProvider.tsx` and the profile-snapshot
    merge of `AuthProvider.tsx`.

  JavaScript numbers are modelled as exact rationals (`ℚ`): every numeric
  operation used by the code (`Math.min`, `Math.max`, comparison, equality)
  is order-theoretic, so the embedding is faithful on all non-NaN inputs.
  JavaScript `unknown` error values are modelled by the inductive `ErrV` of
  error-like objects; absence of a property is `none`.
-/

/-! ## Error values (lib/errors.ts) -/

/-- A JavaScript error-like object, as far as `errors.ts` inspects one:
an `instanceof Error` flag plus the `code`, `message`, `userMessage`,
`domain`, `details` and `cause` properties (`none` = property absent or
nullish).  `details` is kept abstract as an optional string. -/
inductive ErrV where
  | mk (instanceOfError : Bool) (code : Option String) (message : Option String)
       (userMessage : Option String) (domain : Option String) (details : Option String)
       (cause : Option ErrV)

def ErrV.instanceOfError : ErrV → Bool
  | .mk b _ _ _ _ _ _ => b

def ErrV.code : ErrV → Option String
  | .mk _ c _ _ _ _ _ => c

def ErrV.message : ErrV → Option String
  | .mk _ _ m _ _ _ _ => m

def ErrV.userMessage : ErrV → Option String
  | .mk _ _ _ um _ _ _ => um

def ErrV.domain : ErrV → Option String
  | .mk _ _ _ _ d _ _ => d

def ErrV.details : ErrV → Option String
  | .mk _ _ _ _ _ dt _ => dt

def ErrV.cause : ErrV → Option ErrV
  | .mk _ _ _ _ _ _ c => c

/-- The `ErrorInit` record taken by `createAppError`. -/
structure ErrorInit where
  code : String
  message : String
  userMessage : Option String := none
  cause : Option ErrV := none
  domain : Option String := none
  details : Option String := none

/-- JavaScript truthiness for an optional string: the empty string is falsy. -/
def truthy (o : Option String) : Option String :=
  match o with
  | some s => if s == "" then none else some s
  | none => none

/-- `createAppError` from errors.ts: builds an `Error` object and assigns the
structured fields.  `userMessage` and `domain` are assigned only when truthy,
`details` only when not `undefined`; a provided `cause` is an object and hence
truthy. -/
def createAppError (init : ErrorInit) : ErrV :=
  .mk true (some init.code) (some init.message)
      (truthy init.userMessage) (truthy init.domain) init.details init.cause

/-- The fallback record of `toAppError` (`Partial ErrorInit` with mandatory
`code`). -/
structure Fallback where
  code : String
  message : Option String := none
  userMessage : Option String := none
  domain : Option String := none
  details : Option String := none

/-- Strings are treated as character sequences throughout (the JS string
semantics); the following helpers are the character-wise versions of the
corresponding string operations. -/
def strIsPrefixOf (p s : String) : Bool :=
  p.data.isPrefixOf s.data

/-- `String.drop`, character-wise. -/
def strDrop (s : String) (n : Nat) : String :=
  ⟨s.data.drop n⟩

/-- `String.toUpperCase`, character-wise. -/
def strUpper (s : String) : String :=
  ⟨s.data.map Char.toUpper⟩

/-- `String.toLowerCase`, character-wise. -/
def strLower (s : String) : String :=
  ⟨s.data.map Char.toLower⟩

/-- Replace every dash by an underscore (the global dash regex replacement). -/
def replaceDash (s : String) : String :=
  ⟨s.data.map (fun c => if c == '-' then '_' else c)⟩

/-- The set of bare Firestore SDK codes recognised by
`normalizeFirebaseCode`. -/
def firestoreBare : List String :=
  ["cancelled", "unknown", "invalid-argument", "deadline-exceeded", "not-found",
   "already-exists", "permission-denied", "resource-exhausted", "failed-precondition",
   "aborted", "out-of-range", "unimplemented", "internal", "unavailable", "data-loss"]

/-- `normalizeFirebaseCode` from errors.ts. -/
def normalizeFirebaseCode (code : String) : Option String :=
  if strIsPrefixOf "auth/" code then
    some ("AUTH_" ++ strUpper (replaceDash (strDrop code 5)))
  else if strIsPrefixOf "firestore/" code then
    some ("FIRESTORE_" ++ strUpper (replaceDash (strDrop code 10)))
  else if firestoreBare.contains code then
    some ("FIRESTORE_" ++ strUpper (replaceDash code))
  else
    none

/-- The first branch of `toAppError`, shared by both code paths: build the
normalized error.  See `toAppError` below. -/
def toAppError (e : ErrV) (fb : Fallback) : ErrV :=
  match e.code, e.message with
  | some c, some m =>
    if c != "" && m != "" then
      createAppError
        { code := (normalizeFirebaseCode c).getD fb.code
          message := m
          userMessage := fb.userMessage
          cause := some e
          domain := fb.domain
          details := fb.details }
    else
      createAppError
        { code := fb.code
          message := (truthy fb.message).getD
            (if e.instanceOfError then (e.message).getD "" else "Unknown error")
          userMessage := fb.userMessage
          cause := some e
          domain := fb.domain
          details := fb.details }
  | _, _ =>
    createAppError
      { code := fb.code
        message := (truthy fb.message).getD
          (if e.instanceOfError then (e.message).getD "" else "Unknown error")
        userMessage := fb.userMessage
        cause := some e
        domain := fb.domain
        details := fb.details }

/-- Does `hay` contain `pat` as a contiguous sublist? -/
def charsContain (pat : List Char) : List Char → Bool
  | [] => pat.isEmpty
  | c :: rest => pat.isPrefixOf (c :: rest) || charsContain pat rest

/-- The remainder of `hay` after the first occurrence of `pat`, if any. -/
def charsSplitAfter (pat : List Char) : List Char → Option (List Char)
  | [] => if pat.isEmpty then some [] else none
  | c :: rest =>
    if pat.isPrefixOf (c :: rest) then some (List.drop pat.length (c :: rest))
    else charsSplitAfter pat rest

/-- The case-insensitive regex `not been used|not enabled|enable.*Firestore`
applied to a message (messages are single-line, so `.` is unrestricted). -/
def notInitMessage (m : String) : Bool :=
  let ls := (strLower m).data
  charsContain ("not been used").data ls ||
  charsContain ("not enabled").data ls ||
  (match charsSplitAfter ("enable").data ls with
   | some rest => charsContain ("firestore").data rest
   | none => false)

/-- `isFirestoreNotInitialized` from errors.ts. -/
def isFirestoreNotInitialized (e : ErrV) : Bool :=
  (e.code == some "FIRESTORE_FAILED_PRECONDITION") || notInitMessage ((e.message).getD "")

/-- `isAppError` from errors.ts: object with `code` and `message` properties. -/
def isAppError (e : ErrV) : Bool :=
  (e.code).isSome && (e.message).isSome

/-- The result of `serializeError`: an app error is projected to exactly
`code`, `message`, `domain`, `userMessage`; a plain `Error` to its message
(its `name` property is not modelled); anything else passes through. -/
inductive Serialized where
  | app (code : Option String) (message : Option String)
        (domain : Option String) (userMessage : Option String)
  | plainError (message : Option String)
  | passthrough (e : ErrV)

/-- `serializeError` from errors.ts. -/
def serializeError (e : ErrV) : Serialized :=
  if isAppError e then .app e.code e.message e.domain e.userMessage
  else if e.instanceOfError then .plainError e.message
  else .passthrough e

/-- The fields accepted by `log`. -/
structure LogFields where
  event : String
  level : Option String := none
  context : List (String × String) := []
  error : Option ErrV := none

/-- The record `log` emits to the console sink (`t` is the caller-visible
timestamp string, passed explicitly since it is an environment input). -/
structure LogLine where
  t : String
  level : String
  event : String
  context : List (String × String)
  error : Option Serialized

/-- `log` from errors.ts: level defaults to info, and the error, when
present, is serialized. -/
def log (now : String) (f : LogFields) : LogLine :=
  { t := now
    level := (f.level).getD "info"
    event := f.event
    context := f.context
    error := (f.error).map serializeError }

/-! ## Availability latch (firestoreStatus module) -/

/-- `markFirestoreUnavailable`: the guard is JS truthiness
(`if (!unavailableReason)`), so the reason is assigned when no reason is
retained or the retained reason is the empty string; only a non-empty
retained reason is kept. -/
def markFirestoreUnavailable (reason : String) (st : Option String) : Option String :=
  match st with
  | none => some reason
  | some r => if r == "" then some reason else some r

/-- `isFirestoreAvailable`: true while no reason has been latched. -/
def isFirestoreAvailable (st : Option String) : Bool :=
  st.isNone

/-! ## Data model (services/users.ts and services/userSettings.ts) -/

/-- A stored user profile document (after the Firestore converter resolved
the server timestamp; `createdAt = none` models a null timestamp). -/
structure ProfileDoc where
  email : String
  displayName : Option String
  createdAt : Option Nat
deriving DecidableEq

/-- The payload `setDoc` receives through `userProfileConverter.toFirestore`:
`createdAt = none` stands for the `serverTimestamp()` sentinel. -/
structure ProfileWrite where
  email : String
  displayName : Option String
  createdAt : Option Nat
deriving DecidableEq

/-- The client-side `UserProfile` record produced by
`userProfileConverter.fromFirestore`. -/
structure UserProfile where
  id : String
  email : String
  displayName : Option String
  createdAt : Option Nat
deriving DecidableEq

/-- `updateDoc` payload for a profile: `displayName = none` means the field
is omitted from the update, `some v` sets it to `v` (possibly null). -/
structure ProfileUpdate where
  displayName : Option (Option String) := none
deriving DecidableEq

/-- A server-timestamp-bearing value: the unresolved `serverTimestamp()`
sentinel as held client-side, or a resolved server time. -/
inductive TimeVal where
  | sentinel
  | at (n : Nat)
deriving DecidableEq

/-- The nested `ui` preferences object of `UserSettings`. -/
structure UiPrefs where
  scale : Option ℚ
deriving DecidableEq

/-- The `UserSettings` record of services/userSettings.ts; both fields are
optional. -/
structure UserSettings where
  ui : Option UiPrefs := none
  updatedAt : Option TimeVal := none
deriving DecidableEq

/-- The identity-provider user (`firebase/auth` `User`), as far as the
services read it. -/
structure FirebaseUser where
  uid : String
  email : Option String
  displayName : Option String
deriving DecidableEq

/-- `userProfileConverter.fromFirestore` applied to a snapshot with id `id`
and data `d`. -/
def profileFromDoc (id : String) (d : ProfileDoc) : UserProfile :=
  { id := id, email := d.email, displayName := d.displayName, createdAt := d.createdAt }

/-- `userProfileConverter.toFirestore`: null `createdAt` becomes the
`serverTimestamp()` sentinel. -/
def profileToWrite (p : UserProfile) : ProfileWrite :=
  { email := p.email, displayName := p.displayName, createdAt := p.createdAt }

/-- `user.email || "unknown"` (empty string is falsy). -/
def emailOrUnknown (e : Option String) : String :=
  match e with
  | some s => if s == "" then "unknown" else s
  | none => "unknown"

/-- The in-memory profile `ensureUserProfile` synthesizes from the identity
(the same record literal occurs three times in the source: the unavailable
branch, the pre-write document, and the latched catch branch). -/
def ephemeralProfile (u : FirebaseUser) : UserProfile :=
  { id := u.uid
    email := emailOrUnknown u.email
    displayName := u.displayName
    createdAt := none }

/-! ## Abstract backend -/

/-- One backend invocation, recorded for behavioural traces. -/
inductive Call where
  | getUserDoc (id : String)
  | setUserDoc (id : String)
  | updateUserDoc (id : String)
  | getSettingsDoc (id : String)
  | setSettingsDoc (id : String)
  | updateSettingsDoc (id : String)
deriving DecidableEq

/-- Is the call a write? -/
def isWrite : Call → Bool
  | .setUserDoc _ => true
  | .updateUserDoc _ => true
  | .setSettingsDoc _ => true
  | .updateSettingsDoc _ => true
  | _ => false

/-- The write calls of a trace. -/
def writeCalls (cs : List Call) : List Call :=
  cs.filter isWrite

/-- The Firestore SDK as seen by the two services: six fallible document
primitives over an abstract backend state `σ`.  A failure carries the raw
provider error value. -/
structure Backend (σ : Type) where
  getUserDoc : σ → String → (Except ErrV (Option ProfileDoc)) × σ
  setUserDoc : σ → String → ProfileWrite → (Except ErrV Unit) × σ
  updateUserDoc : σ → String → ProfileUpdate → (Except ErrV Unit) × σ
  getSettingsDoc : σ → String → (Except ErrV (Option UserSettings)) × σ
  setSettingsDoc : σ → String → UserSettings → (Except ErrV Unit) × σ
  updateSettingsDoc : σ → String → UserSettings → (Except ErrV Unit) × σ

/-- Backend state plus the process-wide availability latch. -/
structure World (σ : Type) where
  fs : σ
  flag : Option String

/-! ## Profile service (services/users.ts) -/

/-- `getUserProfile`: unavailable short-circuits to null; a read failure is
wrapped to `FIRESTORE_READ_FAILED`, and a not-initialized failure latches
the flag and degrades to null. -/
def getUserProfile {σ : Type} (B : Backend σ) (id : String) (w : World σ) :
    (Except ErrV (Option UserProfile)) × World σ × List Call :=
  if !(isFirestoreAvailable w.flag) then (.ok none, w, [])
  else
    match B.getUserDoc w.fs id with
    | (.ok snap, fs2) =>
      (.ok (snap.map (fun d => profileFromDoc id d)), { fs := fs2, flag := w.flag }, [.getUserDoc id])
    | (.error e, fs2) =>
      let appError := toAppError e
        { code := "FIRESTORE_READ_FAILED"
          message := some ("Failed to read user profile " ++ id)
          userMessage := some "Could not load user profile."
          domain := some "FIRESTORE" }
      if isFirestoreNotInitialized appError then
        (.ok none,
         { fs := fs2, flag := markFirestoreUnavailable ((appError.message).getD "") w.flag },
         [.getUserDoc id])
      else
        (.error appError, { fs := fs2, flag := w.flag }, [.getUserDoc id])

/-- `ensureUserProfile`: unavailable synthesizes an ephemeral profile;
otherwise read-or-create with a confirming re-read, the whole body wrapped
by a catch that either latches (not-initialized) or rethrows via
`toAppError` with the `FIRESTORE_CREATE_FAILED` fallback. -/
def ensureUserProfile {σ : Type} (B : Backend σ) (u : FirebaseUser) (w : World σ) :
    (Except ErrV UserProfile) × World σ × List Call :=
  if !(isFirestoreAvailable w.flag) then (.ok (ephemeralProfile u), w, [])
  else
    let body : (Except ErrV UserProfile) × World σ × List Call :=
      match getUserProfile B u.uid w with
      | (.error e, w1, c1) => (.error e, w1, c1)
      | (.ok (some existing), w1, c1) => (.ok existing, w1, c1)
      | (.ok none, w1, c1) =>
        match B.setUserDoc w1.fs u.uid (profileToWrite (ephemeralProfile u)) with
        | (.error e, fs2) => (.error e, { fs := fs2, flag := w1.flag }, c1 ++ [.setUserDoc u.uid])
        | (.ok _, fs2) =>
          match getUserProfile B u.uid { fs := fs2, flag := w1.flag } with
          | (.error e, w3, c3) => (.error e, w3, c1 ++ [.setUserDoc u.uid] ++ c3)
          | (.ok (some created), w3, c3) => (.ok created, w3, c1 ++ [.setUserDoc u.uid] ++ c3)
          | (.ok none, w3, c3) =>
            (.error (createAppError
              { code := "FIRESTORE_CREATE_INCONSISTENT"
                message := "User profile " ++ u.uid ++ " creation not persisted"
                userMessage := some "Profile creation inconsistent."
                domain := some "FIRESTORE" }),
             w3, c1 ++ [.setUserDoc u.uid] ++ c3)
    match body with
    | (.ok v, w1, c1) => (.ok v, w1, c1)
    | (.error e, w1, c1) =>
      let appError := toAppError e
        { code := "FIRESTORE_CREATE_FAILED"
          message := some ("Failed to create user profile " ++ u.uid)
          userMessage := some "Could not initialize your profile."
          domain := some "FIRESTORE" }
      if isFirestoreNotInitialized appError then
        (.ok (ephemeralProfile u),
         { fs := w1.fs, flag := markFirestoreUnavailable ((appError.message).getD "") w1.flag },
         c1)
      else
        (.error appError, w1, c1)

/-- `updateUserProfile`: unavailable throws `FIRESTORE_NOT_INITIALIZED`;
otherwise existence check, partial update, re-read — with the whole body
wrapped by a catch that rethrows via `toAppError` with the
`FIRESTORE_UPDATE_FAILED` fallback.  A re-read of an absent document makes
the source return `undefined` cast to `UserProfile`; that value is modelled
by `none`. -/
def updateUserProfile {σ : Type} (B : Backend σ) (id : String) (data : ProfileUpdate) (w : World σ) :
    (Except ErrV (Option UserProfile)) × World σ × List Call :=
  if !(isFirestoreAvailable w.flag) then
    (.error (createAppError
      { code := "FIRESTORE_NOT_INITIALIZED"
        message := "Firestore not initialized; cannot update profile"
        userMessage := some "Profile storage not ready yet."
        domain := some "FIRESTORE" }), w, [])
  else
    let body : (Except ErrV (Option UserProfile)) × World σ × List Call :=
      match B.getUserDoc w.fs id with
      | (.error e, fs2) => (.error e, { fs := fs2, flag := w.flag }, [.getUserDoc id])
      | (.ok none, fs2) =>
        (.error (createAppError
          { code := "FIRESTORE_NOT_FOUND"
            message := "User profile " ++ id ++ " not found"
            userMessage := some "Profile not found."
            domain := some "FIRESTORE" }),
         { fs := fs2, flag := w.flag }, [.getUserDoc id])
      | (.ok (some _), fs2) =>
        match B.updateUserDoc fs2 id data with
        | (.error e, fs3) =>
          (.error e, { fs := fs3, flag := w.flag }, [.getUserDoc id, .updateUserDoc id])
        | (.ok _, fs3) =>
          match B.getUserDoc fs3 id with
          | (.error e, fs4) =>
            (.error e, { fs := fs4, flag := w.flag },
             [.getUserDoc id, .updateUserDoc id, .getUserDoc id])
          | (.ok snap, fs4) =>
            (.ok (snap.map (fun d => profileFromDoc id d)), { fs := fs4, flag := w.flag },
             [.getUserDoc id, .updateUserDoc id, .getUserDoc id])
    match body with
    | (.ok v, w1, c1) => (.ok v, w1, c1)
    | (.error e, w1, c1) =>
      (.error (toAppError e
        { code := "FIRESTORE_UPDATE_FAILED"
          message := some ("Failed to update user profile " ++ id)
          userMessage := some "Could not update profile."
          domain := some "FIRESTORE" }), w1, c1)

/-- `updateUserProfilePartial`: best-effort — silently no-ops when
unavailable, and swallows (logs only) any backend failure. -/
def updateUserProfilePartial {σ : Type} (B : Backend σ) (id : String) (data : ProfileUpdate)
    (w : World σ) : (Except ErrV Unit) × World σ × List Call :=
  if !(isFirestoreAvailable w.flag) then (.ok (), w, [])
  else
    match B.updateUserDoc w.fs id data with
    | (.ok _, fs2) => (.ok (), { fs := fs2, flag := w.flag }, [.updateUserDoc id])
    | (.error _, fs2) => (.ok (), { fs := fs2, flag := w.flag }, [.updateUserDoc id])

/-! ## Settings service (services/userSettings.ts) — no error handling of
its own: backend failures propagate raw. -/

/-- `getUserSettings`. -/
def getUserSettings {σ : Type} (B : Backend σ) (userId : String) (w : World σ) :
    (Except ErrV (Option UserSettings)) × World σ × List Call :=
  if !(isFirestoreAvailable w.flag) then (.ok none, w, [])
  else
    match B.getSettingsDoc w.fs userId with
    | (.ok snap, fs2) => (.ok snap, { fs := fs2, flag := w.flag }, [.getSettingsDoc userId])
    | (.error e, fs2) => (.error e, { fs := fs2, flag := w.flag }, [.getSettingsDoc userId])

/-- `ensureUserSettings`. -/
def ensureUserSettings {σ : Type} (B : Backend σ) (userId : String) (w : World σ) :
    (Except ErrV UserSettings) × World σ × List Call :=
  if !(isFirestoreAvailable w.flag) then
    (.ok { ui := some { scale := some 1.25 }, updatedAt := none }, w, [])
  else
    match getUserSettings B userId w with
    | (.error e, w1, c1) => (.error e, w1, c1)
    | (.ok (some existing), w1, c1) => (.ok existing, w1, c1)
    | (.ok none, w1, c1) =>
      let initial : UserSettings := { ui := some { scale := some 1.25 }, updatedAt := some .sentinel }
      match B.setSettingsDoc w1.fs userId initial with
      | (.ok _, fs2) => (.ok initial, { fs := fs2, flag := w1.flag }, c1 ++ [.setSettingsDoc userId])
      | (.error e, fs2) => (.error e, { fs := fs2, flag := w1.flag }, c1 ++ [.setSettingsDoc userId])

/-- `updateUserSettings`: spreads the partial record and overwrites
`updatedAt` with the `serverTimestamp()` sentinel. -/
def updateUserSettings {σ : Type} (B : Backend σ) (userId : String) (part : UserSettings)
    (w : World σ) : (Except ErrV Unit) × World σ × List Call :=
  if !(isFirestoreAvailable w.flag) then (.ok (), w, [])
  else
    match B.updateSettingsDoc w.fs userId { ui := part.ui, updatedAt := some .sentinel } with
    | (.ok _, fs2) => (.ok (), { fs := fs2, flag := w.flag }, [.updateSettingsDoc userId])
    | (.error e, fs2) => (.error e, { fs := fs2, flag := w.flag }, [.updateSettingsDoc userId])

/-! ## Concrete backends -/

/-- Resolve a server-timestamp sentinel at server time `now`. -/
def resolveTime (now : Nat) : TimeVal → TimeVal
  | .sentinel => .at now
  | .at n => .at n

/-- An honest Firestore: association lists of documents plus a server
clock. -/
structure FsState where
  users : List (String × ProfileDoc) := []
  settingsDocs : List (String × UserSettings) := []
  now : Nat := 0
deriving DecidableEq

/-- The raw provider error Firestore raises for `updateDoc` on a missing
document. -/
def rawNoDocument : ErrV :=
  .mk true (some "not-found") (some "No document to update") none none none none

/-- The honest backend: reads look documents up, writes store them,
`serverTimestamp()` resolves to the current server clock. -/
def honest : Backend FsState :=
  { getUserDoc := fun s id => (.ok (s.users.lookup id), s)
    setUserDoc := fun s id p =>
      (.ok (),
       { s with
         users := (id, { email := p.email, displayName := p.displayName,
                         createdAt := some ((p.createdAt).getD s.now) }) :: s.users
         now := s.now + 1 })
    updateUserDoc := fun s id upd =>
      match s.users.lookup id with
      | none => (.error rawNoDocument, s)
      | some d =>
        (.ok (),
         { s with users := (id, { d with displayName := (upd.displayName).getD d.displayName }) :: s.users })
    getSettingsDoc := fun s id => (.ok (s.settingsDocs.lookup id), s)
    setSettingsDoc := fun s id d =>
      (.ok (),
       { s with
         settingsDocs := (id, { d with updatedAt := (d.updatedAt).map (resolveTime s.now) }) :: s.settingsDocs
         now := s.now + 1 })
    updateSettingsDoc := fun s id p =>
      match s.settingsDocs.lookup id with
      | none => (.error rawNoDocument, s)
      | some d =>
        (.ok (),
         { s with
           settingsDocs :=
             (id, { ui := match p.ui with | some x => some x | none => d.ui
                    updatedAt := match p.updatedAt with
                                 | some tv => some (resolveTime s.now tv)
                                 | none => d.updatedAt }) :: s.settingsDocs
           now := s.now + 1 }) }

/-- A backend whose writes report success but are never persisted and whose
reads always find nothing — the eventual-consistency / silent-write-failure
scenario the re-read in `ensureUserProfile` guards against. -/
def ghostWrites : Backend Unit :=
  { getUserDoc := fun s _ => (.ok none, s)
    setUserDoc := fun s _ _ => (.ok (), s)
    updateUserDoc := fun s _ _ => (.ok (), s)
    getSettingsDoc := fun s _ => (.ok none, s)
    setSettingsDoc := fun s _ _ => (.ok (), s)
    updateSettingsDoc := fun s _ _ => (.ok (), s) }

/-- The raw provider error of a not-yet-provisioned Firestore project. -/
def rawPrecondition : ErrV :=
  .mk true (some "failed-precondition")
     (some "Cloud Firestore API has not been used in this project before or it is disabled")
     none none none none

/-- A backend on which every primitive fails with the raw
not-yet-provisioned error. -/
def allFail : Backend Unit :=
  { getUserDoc := fun s _ => (.error rawPrecondition, s)
    setUserDoc := fun s _ _ => (.error rawPrecondition, s)
    updateUserDoc := fun s _ _ => (.error rawPrecondition, s)
    getSettingsDoc := fun s _ => (.error rawPrecondition, s)
    setSettingsDoc := fun s _ _ => (.error rawPrecondition, s)
    updateSettingsDoc := fun s _ _ => (.error rawPrecondition, s) }

/-! ## Settings session manager (SettingsProvider.tsx) -/

/-- `Math.min(2, Math.max(0.8, scale))`. -/
def clampScale (v : ℚ) : ℚ :=
  min 2 (max 0.8 v)

/-- The state of one `SettingsProvider` instance.  The debounce timer is
represented by the absolute time at which it would fire (`deadline`);
`persisted` is the trace of scale values handed to
`updateUserSettings` (the remote persist), newest last. -/
structure SettingsSession where
  user : Option String := none
  settings : Option UserSettings := none
  updating : Bool := false
  pendingScale : Option ℚ := none
  deadline : Option ℚ := none
  lastPersistedScale : Option ℚ := none
  persisted : List ℚ := []
deriving DecidableEq

/-- The optimistic local merge performed by `setScale`:
`{...(prev || {}), ui: {...(prev?.ui || {}), scale: clamped}}` — `scale` is
the only `ui` field, so the spread amounts to setting it; other top-level
fields of `prev` are preserved. -/
def optimisticMerge (prev : Option UserSettings) (clamped : ℚ) : UserSettings :=
  { ui := some { scale := some clamped }
    updatedAt := ((prev.getD {}).updatedAt) }

/-- The debounce timer callback: reads the pending value, returns early when
it is null or equals the last persisted value, otherwise persists it via
`updateUserSettings` (success path: the value is recorded as last persisted
and `updating` ends false). -/
def fireDebounce (s : SettingsSession) : SettingsSession :=
  match s.pendingScale with
  | none => { s with deadline := none }
  | some value =>
    if some value = s.lastPersistedScale then { s with deadline := none }
    else
      { s with
        deadline := none
        updating := false
        persisted := s.persisted ++ [value]
        lastPersistedScale := some value }

/-- Let wall-clock time advance to `t`: a timer whose deadline has been
reached fires. -/
def advanceTo (t : ℚ) (s : SettingsSession) : SettingsSession :=
  match s.deadline with
  | none => s
  | some d => if d ≤ t then fireDebounce s else s

/-- The body of `setScale` (after any due timer has fired): no-op without a
user; otherwise clamp, update local state optimistically, record the pending
value and (re)start the 500ms debounce timer. -/
def applySetScale (t scale : ℚ) (s : SettingsSession) : SettingsSession :=
  match s.user with
  | none => s
  | some _ =>
    { s with
      settings := some (optimisticMerge s.settings (clampScale scale))
      pendingScale := some (clampScale scale)
      deadline := some (t + 500) }

/-- `setScale(scale)` invoked at wall-clock time `t`. -/
def setScaleAt (t scale : ℚ) (s : SettingsSession) : SettingsSession :=
  applySetScale t scale (advanceTo t s)

/-- Run a sequence of timed `setScale` calls. -/
def runBurst (evs : List (ℚ × ℚ)) (s : SettingsSession) : SettingsSession :=
  evs.foldl (fun acc tv => setScaleAt tv.1 tv.2 acc) s

/-- Let the quiet period elapse: the surviving timer, if any, fires. -/
def settle (s : SettingsSession) : SettingsSession :=
  match s.deadline with
  | none => s
  | some _ => fireDebounce s

/-- Each call of the list happens no earlier than the previous one and
strictly within 500ms of it (before the previous debounce timer fires). -/
def withinWindow : ℚ → List (ℚ × ℚ) → Prop
  | _, [] => True
  | tp, (t, _) :: rest => tp ≤ t ∧ t < tp + 500 ∧ withinWindow t rest

/-- The scale argument of the last call of a burst (`v0` for the empty
tail). -/
def lastScale (v0 : ℚ) : List (ℚ × ℚ) → ℚ
  | [] => v0
  | (_, v) :: rest => lastScale v rest

/-! ## UI-scale layer (UiScaleProvider.tsx) -/

/-- The UI-scale layer state: the displayed scale and the local-storage
cache (parsed). -/
structure UiScaleState where
  scale : ℚ
  stored : Option ℚ
deriving DecidableEq

/-- `setScale(v)` of the UI-scale layer: clamp, set the displayed scale,
write the local cache, apply to the document, and return the value forwarded
to the settings manager. -/
def uiSetScale (v : ℚ) (_s : UiScaleState) : UiScaleState × ℚ :=
  (⟨clampScale v, some (clampScale v)⟩, clampScale v)

/-! ## Profile snapshot merge (AuthProvider.tsx) -/

/-- The raw snapshot data of a profile document as the subscription callback
reads it (no converter; absent or null fields are `none`, `createdAt`
already converted to a date). -/
structure SnapDoc where
  email : Option String
  displayName : Option String
  createdAt : Option Nat
deriving DecidableEq

/-- The `setProfile` merge of the snapshot callback:
`email: data.email ?? prev?.email ?? u.email ?? "unknown"`,
`displayName: data.displayName ?? null`,
`createdAt: (data.createdAt && toDate) || prev?.createdAt || null`. -/
def mergeSnapshot (u : FirebaseUser) (data : SnapDoc) (prev : Option UserProfile) : UserProfile :=
  { id := u.uid
    email := (data.email).getD ((prev.map UserProfile.email).getD ((u.email).getD "unknown"))
    displayName := data.displayName
    createdAt :=
      match data.createdAt with
      | some ts => some ts
      | none => prev.bind UserProfile.createdAt }

/-! ## Result projections used in theorem statements -/

/-- The `code` of a raised error, if the result is an error. -/
def resErrCode {α : Type} : Except ErrV α → Option String
  | .error e => e.code
  | .ok _ => none

/-- The `message` of a raised error. -/
def resErrMessage {α : Type} : Except ErrV α → Option String
  | .error e => e.message
  | .ok _ => none

/-- The `code` of the `cause` of a raised error. -/
def resErrCauseCode {α : Type} : Except ErrV α → Option (Option String)
  | .error e => (e.cause).map ErrV.code
  | .ok _ => none

/-! ## Concrete inputs for witnesses and counterexamples -/

/-- Identity used in `ensureUserProfile` runs. -/
def uC4 : FirebaseUser := ⟨"u1", some "a@b.com", some "Alice"⟩

/-- The existing stored profile document. -/
def dC4 : ProfileDoc := ⟨"a@b.com", some "Alice", some 7⟩

/-- Honest store already holding `u1`. -/
def sC4 : FsState := ⟨[("u1", dC4)], [], 8⟩

/-- Identity for the inconsistent-create run. -/
def uC5 : FirebaseUser := ⟨"u1", some "a@b.com", none⟩

/-- Honest store for the `updateDisplayName` runs. -/
def sC6 : FsState := ⟨[("u1", ⟨"a@b.com", some "Bob", some 3⟩)], [], 4⟩

/-- An already-normalized application error. -/
def eC7 : ErrV := createAppError
  { code := "FIRESTORE_NOT_FOUND"
    message := "User profile u1 not found"
    userMessage := some "Profile not found."
    domain := some "FIRESTORE" }

/-- A fallback record with a different code. -/
def fbC7 : Fallback := { code := "FIRESTORE_READ_FAILED" }

/-- Identity for the snapshot-merge runs. -/
def uC8 : FirebaseUser := ⟨"u1", some "a@b.com", none⟩

/-- Previously known profile state with a display name. -/
def prevC8 : UserProfile := ⟨"u1", "a@b.com", some "Alice", some 5⟩

/-- A partial snapshot carrying only `email`. -/
def snapC8 : SnapDoc := ⟨some "a@b.com", none, none⟩

/-- A settled settings session for the debounce witness. -/
def sesC2 : SettingsSession :=
  { user := some "u1", lastPersistedScale := some 1.25 }

/-- A settings session for the clamp witness. -/
def sesC3 : SettingsSession := { user := some "u1" }

/-- A UI-scale state for the clamp witness. -/
def uiC3 : UiScaleState := ⟨1.25, none⟩

/-! ## Helper lemmas -/

/-- Folding any sequence of latch attempts over a flag latched with a
non-empty reason leaves it unchanged. -/
theorem foldl_mark_latched (rs : List String) (r0 : String) (h : r0 ≠ "") :
    rs.foldl (fun st r => markFirestoreUnavailable r st) (some r0) = some r0 := by
  induction rs with
  | nil => rfl
  | cons a l ih => simpa [markFirestoreUnavailable, h] using ih

/-- The debounce timer callback does not touch the `user` field. -/
theorem fireDebounce_user (s : SettingsSession) : (fireDebounce s).user = s.user := by
  unfold fireDebounce
  rcases s.pendingScale with _ | v
  · rfl
  · dsimp only
    split <;> rfl

/-- Advancing the clock does not touch the `user` field. -/
theorem advanceTo_user (t : ℚ) (s : SettingsSession) : (advanceTo t s).user = s.user := by
  unfold advanceTo
  rcases s.deadline with _ | d
  · rfl
  · dsimp only
    split
    · exact fireDebounce_user s
    · rfl

/-- Behaviour of a burst whose calls all land strictly inside the running
debounce window: nothing is persisted, the last-persisted bookkeeping and
the user are untouched, the pending value tracks the last (clamped) call,
and a timer is still pending at the end. -/
theorem runBurst_within (evs : List (ℚ × ℚ)) :
    ∀ (tp : ℚ) (s : SettingsSession) (u : String),
      s.user = some u → s.deadline = some (tp + 500) → withinWindow tp evs →
      (runBurst evs s).persisted = s.persisted ∧
      (runBurst evs s).lastPersistedScale = s.lastPersistedScale ∧
      (runBurst evs s).user = s.user ∧
      (runBurst evs s).pendingScale
        = evs.foldl (fun _p tv => some (clampScale tv.2)) s.pendingScale ∧
      ∃ tl : ℚ, (runBurst evs s).deadline = some (tl + 500) := by
  induction evs with
  | nil =>
    intro tp s u hu hd _
    exact ⟨rfl, rfl, rfl, rfl, ⟨tp, hd⟩⟩
  | cons e rest ih =>
    intro tp s u hu hd hw
    obtain ⟨t, v⟩ := e
    obtain ⟨hle, hlt, hw2⟩ := hw
    have hnf : ¬ (tp + 500 ≤ t) := not_le.mpr hlt
    have hstep : setScaleAt t v s =
        { s with settings := some (optimisticMerge s.settings (clampScale v))
                 pendingScale := some (clampScale v)
                 deadline := some (t + 500) } := by
      simp [setScaleAt, advanceTo, applySetScale, hd, hu, hnf]
    have hrb : runBurst ((t, v) :: rest) s = runBurst rest (setScaleAt t v s) := rfl
    obtain ⟨h1, h2, h3, h4, tl, h5⟩ :=
      ih t (setScaleAt t v s) u (by rw [hstep]; exact hu) (by rw [hstep]) hw2
    refine ⟨?_, ?_, ?_, ?_, tl, ?_⟩
    · rw [hrb, h1, hstep]
    · rw [hrb, h2, hstep]
    · rw [hrb, h3, hstep]
    · rw [hrb, h4, hstep]
      simp [List.foldl_cons]
    · rw [hrb, h5]

/-- Folding the pending-value update over a burst yields the clamp of the
last call. -/
theorem foldl_lastScale (v0 : ℚ) (rest : List (ℚ × ℚ)) :
    rest.foldl (fun _p tv => some (clampScale tv.2)) (some (clampScale v0))
      = some (clampScale (lastScale v0 rest)) := by
  induction rest generalizing v0 with
  | nil => rfl
  | cons e l ih => simpa [lastScale] using ih e.2

/-- Closed form of the clamp. -/
theorem clampScale_piecewise (v : ℚ) :
    clampScale v = if v < 0.8 then (0.8 : ℚ) else if 2 < v then 2 else v := by
  unfold clampScale
  rcases lt_or_le v 0.8 with h | h
  · rw [max_eq_left h.le, if_pos h, min_eq_right]
    norm_num
  · rw [max_eq_right h, if_neg (not_lt.mpr h)]
    rcases lt_or_le 2 v with h2 | h2
    · rw [min_eq_left h2.le, if_pos h2]
    · rw [min_eq_right h2, if_neg (not_lt.mpr h2)]

/-! ## Claim theorems -/

/-- C1 (counterexample): "first reason wins" fails at the empty reason —
after `markFirestoreUnavailable("")` the latch is on (`isFirestoreAvailable`
is false, since it tests strict null), yet a second call overwrites the
retained reason, because the source guard `if (!unavailableReason)` tests
JS truthiness and the empty string is falsy. -/
theorem mark_overwrites_empty_reason :
    markFirestoreUnavailable "" none = some ""
    ∧ isFirestoreAvailable (markFirestoreUnavailable "" none) = false
    ∧ markFirestoreUnavailable "second reason" (markFirestoreUnavailable "" none)
        = some "second reason" :=
  ⟨rfl, rfl, rfl⟩

/-- C1 (amended): the backend-availability latch is monotonic up to JS
truthiness of the retained reason — `markFirestoreUnavailable` keeps an
already-set *non-empty* reason (the first non-empty reason wins, over any
further sequence of latch attempts), while an empty retained reason, though
it already latches unavailability, is overwritten by the next call;
`isFirestoreAvailable` is false from the first latch onward, and once
latched every read/write-returning service operation (`getUserProfile`,
`ensureUserProfile`, `getUserSettings`, `ensureUserSettings`,
`updateUserSettings`, `updateUserProfilePartial`) short-circuits to its
degraded result with an empty backend-call trace, leaving backend state and
latch unchanged. -/
theorem availability_latch_monotone_short_circuits :
    (∀ r r0 : String, r0 ≠ "" → markFirestoreUnavailable r (some r0) = some r0)
    ∧ (∀ r : String, markFirestoreUnavailable r none = some r)
    ∧ (∀ r : String, markFirestoreUnavailable r (some "") = some r)
    ∧ (∀ (rs : List String) (r0 : String), r0 ≠ "" →
        rs.foldl (fun st r => markFirestoreUnavailable r st) (some r0) = some r0)
    ∧ (∀ r0 : String, isFirestoreAvailable (some r0) = false)
    ∧ (∀ (σ : Type) (B : Backend σ) (fs : σ) (r id : String) (u : FirebaseUser)
        (part : UserSettings) (upd : ProfileUpdate),
        getUserProfile B id ⟨fs, some r⟩ = (.ok none, ⟨fs, some r⟩, [])
        ∧ ensureUserProfile B u ⟨fs, some r⟩ = (.ok (ephemeralProfile u), ⟨fs, some r⟩, [])
        ∧ getUserSettings B id ⟨fs, some r⟩ = (.ok none, ⟨fs, some r⟩, [])
        ∧ ensureUserSettings B id ⟨fs, some r⟩
            = (.ok { ui := some { scale := some 1.25 }, updatedAt := none }, ⟨fs, some r⟩, [])
        ∧ updateUserSettings B id part ⟨fs, some r⟩ = (.ok (), ⟨fs, some r⟩, [])
        ∧ updateUserProfilePartial B id upd ⟨fs, some r⟩ = (.ok (), ⟨fs, some r⟩, [])) := by
  refine ⟨?_, fun _ => rfl, fun _ => rfl, foldl_mark_latched, fun _ => rfl,
    fun _ _ _ _ _ _ _ _ => ⟨rfl, rfl, rfl, rfl, rfl, rfl⟩⟩
  intro r r0 h
  have hne : (r0 == "") = false := by simpa using h
  simp [markFirestoreUnavailable, hne]

/-- C1 (amended, witness): with the non-empty reason "first reason" latched,
a further latch attempt leaves it in place, and `ensureUserSettings`
short-circuits to the default settings with no backend call. -/
theorem availability_latch_example :
    markFirestoreUnavailable "second reason" (some "first reason") = some "first reason"
    ∧ ensureUserSettings allFail "u1" ⟨(), some "first reason"⟩
        = (.ok { ui := some { scale := some 1.25 }, updatedAt := none },
           ⟨(), some "first reason"⟩, []) := by
  have h := availability_latch_monotone_short_circuits
  exact ⟨h.1 "second reason" "first reason" (by decide),
         (h.2.2.2.2.2 Unit allFail () "first reason" "u1" ⟨"u1", none, none⟩ {} {}).2.2.2.1⟩

/-- C7 (code bug witness): `toAppError` is not idempotent.  On the
already-normalized error `eC7` (code `FIRESTORE_NOT_FOUND`, domain
`FIRESTORE`) with fallback code `FIRESTORE_READ_FAILED`, the conversion
returns an error whose code is the fallback code and whose domain is the
fallback domain (absent), because `normalizeFirebaseCode` returns null on an
already-uppercase code; only the message survives. -/
theorem toAppError_clobbers_normalized_code :
    (toAppError eC7 fbC7).code = some "FIRESTORE_READ_FAILED"
    ∧ eC7.code = some "FIRESTORE_NOT_FOUND"
    ∧ (toAppError eC7 fbC7).domain = none
    ∧ eC7.domain = some "FIRESTORE"
    ∧ (toAppError eC7 fbC7).message = eC7.message := by
  refine ⟨?_, ?_, ?_, ?_, ?_⟩ <;> decide

/-- C5 (code bug witness): on a backend whose profile write reports success
but whose re-read finds nothing, `ensureUserProfile` raises an error whose
code is `FIRESTORE_CREATE_FAILED`, not `FIRESTORE_CREATE_INCONSISTENT`: the
inconsistent-create error thrown inside the try block is re-wrapped by the
catch block via `toAppError`, which replaces its code with the fallback code.
The original `FIRESTORE_CREATE_INCONSISTENT` error survives only as the
`cause`, and the latch is not set. -/
theorem ensureProfile_inconsistent_raises_create_failed :
    resErrCode (ensureUserProfile ghostWrites uC5 ⟨(), none⟩).1 = some "FIRESTORE_CREATE_FAILED"
    ∧ resErrMessage (ensureUserProfile ghostWrites uC5 ⟨(), none⟩).1
        = some "User profile u1 creation not persisted"
    ∧ resErrCauseCode (ensureUserProfile ghostWrites uC5 ⟨(), none⟩).1
        = some (some "FIRESTORE_CREATE_INCONSISTENT")
    ∧ (ensureUserProfile ghostWrites uC5 ⟨(), none⟩).2.1.flag = none := by
  refine ⟨?_, ?_, ?_, ?_⟩ <;> decide

/-- C6 (code bug witness): `updateUserProfile` on an existing profile returns
the updated record with the new display name, but on a missing id it raises
an error whose code is `FIRESTORE_UPDATE_FAILED`, not `FIRESTORE_NOT_FOUND`:
the not-found error thrown inside the try block is re-wrapped by the catch
block via `toAppError`, which replaces its code with the fallback code.  The
original `FIRESTORE_NOT_FOUND` error survives only as the `cause`. -/
theorem updateDisplayName_missing_raises_update_failed :
    (updateUserProfile honest "u1" ⟨some (some "Alice")⟩ ⟨sC6, none⟩).1
      = .ok (some ⟨"u1", "a@b.com", some "Alice", some 3⟩)
    ∧ resErrCode (updateUserProfile honest "missing-id" ⟨some (some "X")⟩ ⟨sC6, none⟩).1
        = some "FIRESTORE_UPDATE_FAILED"
    ∧ resErrMessage (updateUserProfile honest "missing-id" ⟨some (some "X")⟩ ⟨sC6, none⟩).1
        = some "User profile missing-id not found"
    ∧ resErrCauseCode (updateUserProfile honest "missing-id" ⟨some (some "X")⟩ ⟨sC6, none⟩).1
        = some (some "FIRESTORE_NOT_FOUND") := by
  refine ⟨?_, ?_, ?_, ?_⟩ <;> first
  | decide
  | rfl

/-- C9: the serialization of an application error (an error-like object with
`code` and `message` present) consists of exactly its `code`, `message`,
`domain` and `userMessage` fields, and the log output never depends on the
`cause`: two errors differing only in their cause produce identical log
lines. -/
theorem serializeError_omits_cause (b : Bool) (cv mv : String)
    (um d det : Option String) (c1 c2 : Option ErrV) (now ev : String)
    (lv : Option String) (ctx : List (String × String)) :
    serializeError (ErrV.mk b (some cv) (some mv) um d det c1)
      = Serialized.app (some cv) (some mv) d um
    ∧ log now { event := ev, level := lv, context := ctx
                error := some (ErrV.mk b (some cv) (some mv) um d det c1) }
      = log now { event := ev, level := lv, context := ctx
                  error := some (ErrV.mk b (some cv) (some mv) um d det c2) } := by
  constructor
  · simp [serializeError, isAppError, ErrV.code, ErrV.message, ErrV.domain, ErrV.userMessage]
  · simp [log, serializeError, isAppError, ErrV.code, ErrV.message, ErrV.domain, ErrV.userMessage]

/-- C8 (counterexample): the snapshot merge does not preserve a previously
known display name when the snapshot lacks the `displayName` field — the
merged profile has `displayName` null although the previous state knew
"Alice" and the snapshot omitted the field. -/
theorem mergeSnapshot_drops_absent_displayName :
    (mergeSnapshot uC8 snapC8 (some prevC8)).displayName = none
    ∧ prevC8.displayName = some "Alice"
    ∧ snapC8.displayName = none :=
  ⟨rfl, rfl, rfl⟩

/-- C8 (amended): when previous profile state exists, the snapshot merge
falls back to the previous values for `email` and `createdAt` when they are
absent from the snapshot, but takes `displayName` from the snapshot alone —
an absent `displayName` is set to null, discarding the previous value. -/
theorem mergeSnapshot_preserves_email_createdAt_only (u : FirebaseUser)
    (data : SnapDoc) (p : UserProfile) :
    (data.email = none → (mergeSnapshot u data (some p)).email = p.email)
    ∧ (data.createdAt = none → (mergeSnapshot u data (some p)).createdAt = p.createdAt)
    ∧ (mergeSnapshot u data (some p)).displayName = data.displayName := by
  refine ⟨fun h => ?_, fun h => ?_, rfl⟩
  · simp [mergeSnapshot, h]
  · simp [mergeSnapshot, h]

/-- C8 (amended, witness): concrete instance — a snapshot carrying only a
display name keeps the previous email and creation date and overwrites the
display name. -/
theorem mergeSnapshot_preserves_email_createdAt_only_example :
    (mergeSnapshot uC8 ⟨none, some "Zoe", none⟩ (some prevC8)).email = "a@b.com"
    ∧ (mergeSnapshot uC8 ⟨none, some "Zoe", none⟩ (some prevC8)).createdAt = some 5
    ∧ (mergeSnapshot uC8 ⟨none, some "Zoe", none⟩ (some prevC8)).displayName = some "Zoe" := by
  have h := mergeSnapshot_preserves_email_createdAt_only uC8 ⟨none, some "Zoe", none⟩ prevC8
  exact ⟨h.1 rfl, h.2.1 rfl, h.2.2⟩

/-- C4: `ensureUserProfile` is idempotent on an existing profile — with the
backend available and the document stored, a call returns the converted
stored record, performs no writes and leaves the world unchanged, so a
second call (run on the world the first produced) returns an equal result
and performs zero additional writes. -/
theorem ensureProfile_idempotent_existing (u : FirebaseUser) (s : FsState) (d : ProfileDoc)
    (hd : s.users.lookup u.uid = some d) :
    ensureUserProfile honest u ⟨s, none⟩
      = (.ok (profileFromDoc u.uid d), ⟨s, none⟩, [Call.getUserDoc u.uid])
    ∧ ensureUserProfile honest u (ensureUserProfile honest u ⟨s, none⟩).2.1
      = (.ok (profileFromDoc u.uid d), ⟨s, none⟩, [Call.getUserDoc u.uid])
    ∧ writeCalls (ensureUserProfile honest u ⟨s, none⟩).2.2 = [] := by
  have h1 : ensureUserProfile honest u ⟨s, none⟩
      = (.ok (profileFromDoc u.uid d), ⟨s, none⟩, [Call.getUserDoc u.uid]) := by
    simp [ensureUserProfile, getUserProfile, honest, isFirestoreAvailable, hd]
  refine ⟨h1, ?_, ?_⟩
  · rw [h1]
    exact h1
  · rw [h1]
    rfl

/-- C4 (witness): concrete instance on the honest store already holding the
profile of `u1`. -/
theorem ensureProfile_idempotent_existing_example :
    ensureUserProfile honest uC4 ⟨sC4, none⟩
      = (.ok ⟨"u1", "a@b.com", some "Alice", some 7⟩, ⟨sC4, none⟩, [Call.getUserDoc "u1"])
    ∧ writeCalls (ensureUserProfile honest uC4 ⟨sC4, none⟩).2.2 = [] := by
  have h := ensureProfile_idempotent_existing uC4 sC4 dC4 (by rfl)
  exact ⟨h.1, h.2.2⟩

/-- The settings-service read propagates any backend failure raw and never
touches the latch. -/
theorem getUserSettings_raw (σ : Type) (B : Backend σ) (fs : σ) (id : String) :
    (getUserSettings B id ⟨fs, none⟩).2.1.flag = none
    ∧ (∀ e : ErrV, (getUserSettings B id ⟨fs, none⟩).1 = .error e →
        (B.getSettingsDoc fs id).1 = .error e) := by
  rcases hget : B.getSettingsDoc fs id with ⟨r1, fs1⟩
  cases r1 with
  | ok snap =>
    refine ⟨?_, ?_⟩
    · simp [getUserSettings, isFirestoreAvailable, hget]
    · intro e he
      simp [getUserSettings, isFirestoreAvailable, hget] at he
  | error e0 =>
    refine ⟨?_, ?_⟩
    · simp [getUserSettings, isFirestoreAvailable, hget]
    · intro e he
      simp [getUserSettings, isFirestoreAvailable, hget] at he
      simp [he]

/-- The settings-service read-or-create propagates any backend failure raw
(from the read, or from the create issued on the post-read state) and never
touches the latch. -/
theorem ensureUserSettings_raw (σ : Type) (B : Backend σ) (fs : σ) (id : String) :
    (ensureUserSettings B id ⟨fs, none⟩).2.1.flag = none
    ∧ (∀ e : ErrV, (ensureUserSettings B id ⟨fs, none⟩).1 = .error e →
        (B.getSettingsDoc fs id).1 = .error e ∨
        (B.setSettingsDoc (B.getSettingsDoc fs id).2 id
          { ui := some { scale := some 1.25 }, updatedAt := some TimeVal.sentinel }).1
          = .error e) := by
  rcases hget : B.getSettingsDoc fs id with ⟨r1, fs1⟩
  cases r1 with
  | ok snap =>
    cases snap with
    | some sdoc =>
      refine ⟨?_, ?_⟩
      · simp [ensureUserSettings, getUserSettings, isFirestoreAvailable, hget]
      · intro e he
        simp [ensureUserSettings, getUserSettings, isFirestoreAvailable, hget] at he
    | none =>
      rcases hset : B.setSettingsDoc fs1 id
          { ui := some { scale := some 1.25 }, updatedAt := some TimeVal.sentinel }
        with ⟨r2, fs2⟩
      cases r2 with
      | ok _ =>
        refine ⟨?_, ?_⟩
        · simp [ensureUserSettings, getUserSettings, isFirestoreAvailable, hget, hset]
        · intro e he
          simp [ensureUserSettings, getUserSettings, isFirestoreAvailable, hget, hset] at he
      | error e0 =>
        refine ⟨?_, ?_⟩
        · simp [ensureUserSettings, getUserSettings, isFirestoreAvailable, hget, hset]
        · intro e he
          simp [ensureUserSettings, getUserSettings, isFirestoreAvailable, hget, hset] at he
          right
          simp [hget, hset, he]
  | error e0 =>
    refine ⟨?_, ?_⟩
    · simp [ensureUserSettings, getUserSettings, isFirestoreAvailable, hget]
    · intro e he
      simp [ensureUserSettings, getUserSettings, isFirestoreAvailable, hget] at he
      left
      simp [he]

/-- The settings-service update propagates any backend failure raw and never
touches the latch. -/
theorem updateUserSettings_raw (σ : Type) (B : Backend σ) (fs : σ) (id : String)
    (part : UserSettings) :
    (updateUserSettings B id part ⟨fs, none⟩).2.1.flag = none
    ∧ (∀ e : ErrV, (updateUserSettings B id part ⟨fs, none⟩).1 = .error e →
        (B.updateSettingsDoc fs id { ui := part.ui, updatedAt := some TimeVal.sentinel }).1
          = .error e) := by
  rcases hupd : B.updateSettingsDoc fs id { ui := part.ui, updatedAt := some TimeVal.sentinel }
    with ⟨r1, fs1⟩
  cases r1 with
  | ok _ =>
    refine ⟨?_, ?_⟩
    · simp [updateUserSettings, isFirestoreAvailable, hupd]
    · intro e he
      simp [updateUserSettings, isFirestoreAvailable, hupd] at he
  | error e0 =>
    refine ⟨?_, ?_⟩
    · simp [updateUserSettings, isFirestoreAvailable, hupd]
    · intro e he
      simp [updateUserSettings, isFirestoreAvailable, hupd] at he
      simp [he]

/-- C10: with the backend available, the settings service performs no error
handling of its own — any backend failure inside `getUserSettings`,
`ensureUserSettings` or `updateUserSettings` propagates to the caller as the
raw provider error value (never wrapped by `toAppError`), and none of these
operations ever sets the availability latch, whatever the failure. -/
theorem settings_service_raw_errors (σ : Type) (B : Backend σ) (fs : σ) (id : String)
    (part : UserSettings) :
    (getUserSettings B id ⟨fs, none⟩).2.1.flag = none
    ∧ (∀ e : ErrV, (getUserSettings B id ⟨fs, none⟩).1 = .error e →
        (B.getSettingsDoc fs id).1 = .error e)
    ∧ (ensureUserSettings B id ⟨fs, none⟩).2.1.flag = none
    ∧ (∀ e : ErrV, (ensureUserSettings B id ⟨fs, none⟩).1 = .error e →
        (B.getSettingsDoc fs id).1 = .error e ∨
        (B.setSettingsDoc (B.getSettingsDoc fs id).2 id
          { ui := some { scale := some 1.25 }, updatedAt := some TimeVal.sentinel }).1
          = .error e)
    ∧ (updateUserSettings B id part ⟨fs, none⟩).2.1.flag = none
    ∧ (∀ e : ErrV, (updateUserSettings B id part ⟨fs, none⟩).1 = .error e →
        (B.updateSettingsDoc fs id { ui := part.ui, updatedAt := some TimeVal.sentinel }).1
          = .error e) :=
  ⟨(getUserSettings_raw σ B fs id).1, (getUserSettings_raw σ B fs id).2,
   (ensureUserSettings_raw σ B fs id).1, (ensureUserSettings_raw σ B fs id).2,
   (updateUserSettings_raw σ B fs id part).1, (updateUserSettings_raw σ B fs id part).2⟩

/-- C10 (witness): on a backend that fails every call with the raw
not-yet-provisioned provider error — a failure that does match the
not-initialized predicate — `getUserSettings` surfaces exactly that raw
error and the latch stays unset. -/
theorem settings_service_raw_errors_example :
    (getUserSettings allFail "u1" ⟨(), none⟩).2.1.flag = none
    ∧ (allFail.getSettingsDoc () "u1").1 = .error rawPrecondition
    ∧ notInitMessage ((rawPrecondition.message).getD "") = true := by
  have h := settings_service_raw_errors Unit allFail () "u1" {}
  exact ⟨h.1, h.2.1 rawPrecondition rfl, by decide⟩

/-- C2: for a burst of `setScale` calls each landing strictly within the
500ms debounce window of the previous one, started from a settled session
(no timer pending), once the window settles at most one remote persist is
issued, its value is the clamp of the last call of the burst, and no persist
at all is issued when that value equals the last-persisted value. -/
theorem debounce_coalesces_last_write (t0 v0 : ℚ) (rest : List (ℚ × ℚ))
    (s0 : SettingsSession) (u : String) (hu : s0.user = some u)
    (hidle : s0.deadline = none) (hw : withinWindow t0 rest) :
    (settle (runBurst ((t0, v0) :: rest) s0)).persisted
      = s0.persisted ++
        (if some (clampScale (lastScale v0 rest)) = s0.lastPersistedScale then []
         else [clampScale (lastScale v0 rest)]) := by
  have hstep : setScaleAt t0 v0 s0 =
      { s0 with settings := some (optimisticMerge s0.settings (clampScale v0))
                pendingScale := some (clampScale v0)
                deadline := some (t0 + 500) } := by
    simp [setScaleAt, advanceTo, applySetScale, hidle, hu]
  have hrb : runBurst ((t0, v0) :: rest) s0 = runBurst rest (setScaleAt t0 v0 s0) := rfl
  obtain ⟨h1, h2, h3, h4, tl, h5⟩ :=
    runBurst_within rest t0 (setScaleAt t0 v0 s0) u (by rw [hstep]; exact hu) (by rw [hstep]) hw
  have hpend : (runBurst rest (setScaleAt t0 v0 s0)).pendingScale
      = some (clampScale (lastScale v0 rest)) := by
    rw [h4, hstep]
    exact foldl_lastScale v0 rest
  have hpers : (runBurst rest (setScaleAt t0 v0 s0)).persisted = s0.persisted := by
    rw [h1, hstep]
  have hlast : (runBurst rest (setScaleAt t0 v0 s0)).lastPersistedScale
      = s0.lastPersistedScale := by
    rw [h2, hstep]
  rw [hrb]
  simp only [settle, h5, fireDebounce, hpend, hlast, hpers]
  split
  · simp [hpers]
  · simp [hpers]

/-- C2 (witness): a burst of three calls inside the window — `1.9`, then an
out-of-range `3`, then `1.5` — persists exactly one write with the final
clamped value `1.5`. -/
theorem debounce_coalesces_last_write_example :
    (settle (runBurst [((0 : ℚ), (1.9 : ℚ)), (100, 3), (200, 1.5)] sesC2)).persisted
      = [1.5] := by
  have h := debounce_coalesces_last_write 0 1.9 [(100, 3), (200, 1.5)] sesC2 "u1" rfl rfl
    (by norm_num [withinWindow])
  rw [h]
  norm_num [lastScale, clampScale, sesC2, min_def, max_def]

/-- C3: `setScale(v)` stores and displays exactly `clamp(v, 0.8, 2.0)` — the
settings session records the clamped value both in its optimistic settings
state and as the pending persist value, the UI-scale layer displays it,
caches it and forwards it, and the clamp is `v` on `[0.8, 2]`, `0.8` below
and `2` above. -/
theorem setScale_clamps (v t : ℚ) (s : SettingsSession) (u : String)
    (hu : s.user = some u) (st : UiScaleState) :
    ((setScaleAt t v s).settings.bind UserSettings.ui).bind UiPrefs.scale
      = some (clampScale v)
    ∧ (setScaleAt t v s).pendingScale = some (clampScale v)
    ∧ (uiSetScale v st).1.scale = clampScale v
    ∧ (uiSetScale v st).1.stored = some (clampScale v)
    ∧ (uiSetScale v st).2 = clampScale v
    ∧ clampScale v = (if v < 0.8 then (0.8 : ℚ) else if 2 < v then 2 else v) := by
  have hu2 : (advanceTo t s).user = some u := by rw [advanceTo_user]; exact hu
  refine ⟨?_, ?_, rfl, rfl, rfl, clampScale_piecewise v⟩
  · simp [setScaleAt, applySetScale, hu2, optimisticMerge]
  · simp [setScaleAt, applySetScale, hu2]

/-- C3 (witness): `setScale(3)` yields `2` everywhere (stored optimistic
settings, pending persist value, UI display and forwarded value). -/
theorem setScale_clamps_example :
    ((setScaleAt 0 3 sesC3).settings.bind UserSettings.ui).bind UiPrefs.scale = some 2
    ∧ (uiSetScale 3 uiC3).2 = 2 := by
  have h := setScale_clamps 3 0 sesC3 "u1" rfl uiC3
  constructor
  · rw [h.1]
    norm_num [clampScale, min_def, max_def]
  · rw [h.2.2.2.2.1]
    norm_num [clampScale, min_def, max_def]
